import Mathlib

/-!
Verification of the shopping-cart → checkout → receipt pipeline and the
reporting aggregators of the InJapan Food POS dashboard.

The definitions below are shallow embeddings of the TypeScript source:
* `src/src/components/kasir/POS.tsx` — the cart state (`CartItem[]`), the
  mutations `addToCart`, `updateQuantity`, `removeFromCart`, the derived
  `cartTotal`, and the checkout handler `handleCheckout`;
* `ReceiptModal.tsx` — the receipt rendering (`receiptNumber`, per-line
  subtotals, the grand total);
* `src/src/components/kasir/TransactionsTable.tsx` — the receipt-number cell
  and `prepareReceiptData`;
* `src/src/pages/admin/SalesRevenueReport.tsx` — `generateReportsFromOrders`
  and `generateMockData`;
* `src/src/components/admin/MonthlySalesChart.tsx` and
  `src/src/components/kasir/KasirDashboard.tsx` — the read-error branches of
  the two other reporting views.

Prices are whole-yen non-negative integers (spec §3), so `Nat` models the
JavaScript numbers involved; quantity deltas may be negative, so they are
`Int`.  The Firestore store is modelled as a list of (document id, document)
pairs, and an append is an `AppendOutcome`: the store either assigns an id
atomically or the call throws.
-/

/-- A cart line as held in the POS component's `cart` state
(`interface CartItem` in POS.tsx: id, name, price, quantity). -/
structure CartItem where
  id : String
  name : String
  price : Nat
  quantity : Nat
deriving Repr, DecidableEq

/-- The fields of a product that `addToCart` reads (POS.tsx lines 111-116). -/
structure Product where
  id : String
  name : String
  price : Nat
deriving Repr, DecidableEq

/-- The authenticated user as read by `handleCheckout`
(`user?.displayName`, `user?.email`, `user?.uid`); each field may be absent. -/
structure AuthUser where
  displayName : Option String
  email : Option String
  uid : Option String
deriving Repr, DecidableEq

/-- JavaScript `a || b` on an optional string `a`: `b` when `a` is
absent or empty (the empty string is falsy). -/
def jsOrString (a : Option String) (b : String) : String :=
  match a with
  | some s => if s = "" then b else s
  | none => b

/-- `user?.displayName || user?.email || 'Unknown'` (POS.tsx line 168). -/
def cashierNameOf (user : Option AuthUser) : String :=
  jsOrString (user.bind (·.displayName)) (jsOrString (user.bind (·.email)) "Unknown")

/-- `cartTotal` (POS.tsx line 145):
`cart.reduce((total, item) => total + (item.price * item.quantity), 0)`. -/
def cartTotal (cart : List CartItem) : Nat :=
  cart.foldl (fun total item => total + item.price * item.quantity) 0

/-- `addToCart` (POS.tsx lines 98-118): if a line with the product's id is
already present, map over the cart incrementing that line's quantity;
otherwise append a new line with quantity 1. -/
def addToCart (cart : List CartItem) (product : Product) : List CartItem :=
  if cart.any (fun item => item.id == product.id) then
    cart.map (fun item =>
      if item.id == product.id then { item with quantity := item.quantity + 1 } else item)
  else
    cart ++ [{ id := product.id, name := product.name, price := product.price, quantity := 1 }]

/-- `updateQuantity` (POS.tsx lines 127-137): map over the cart; on the
matching id the new quantity is `Math.max(1, item.quantity + change)`. -/
def updateQuantity (cart : List CartItem) (id : String) (change : Int) : List CartItem :=
  cart.map (fun item =>
    if item.id == id then
      { item with quantity := (max 1 ((item.quantity : Int) + change)).toNat }
    else item)

/-- `removeFromCart` (POS.tsx lines 140-142): filter the line out. -/
def removeFromCart (cart : List CartItem) (id : String) : List CartItem :=
  cart.filter (fun item => item.id != id)

/-- The transaction document `handleCheckout` builds (POS.tsx lines 160-173). -/
structure Transaction where
  items : List CartItem
  totalAmount : Nat
  cashier : String
  cashierId : Option String
  status : String
  paymentMethod : String
  created_at : String
deriving Repr, DecidableEq

/-- POS.tsx lines 160-173: the document written by checkout.  `items` is the
per-item mapped copy `cart.map(item => ({id, name, price, quantity}))`,
`totalAmount` is `cartTotal`, `status` the literal `'completed'` and
`paymentMethod` the literal `'Cash'`. -/
def mkTransaction (cart : List CartItem) (user : Option AuthUser) (now : String) : Transaction :=
  { items := cart.map (fun item =>
      { id := item.id, name := item.name, price := item.price, quantity := item.quantity }),
    totalAmount := cartTotal cart,
    cashier := cashierNameOf user,
    cashierId := user.bind (·.uid),
    status := "completed",
    paymentMethod := "Cash",
    created_at := now }

/-- The receipt value handed to `ReceiptModal` (POS.tsx lines 179-189 and
TransactionsTable.tsx lines 189-203). -/
structure ReceiptData where
  id : String
  items : List CartItem
  totalAmount : Nat
  cashier : String
  timestamp : String
  paymentMethod : String
  storeName : String
  storeAddress : String
  storePhone : String
deriving Repr, DecidableEq

/-- POS.tsx lines 179-189: the receipt built right after a successful append;
`id` is the store-assigned document id, `items` the cart lines. -/
def mkReceiptData (docId : String) (cart : List CartItem) (user : Option AuthUser)
    (now : String) : ReceiptData :=
  { id := docId,
    items := cart,
    totalAmount := cartTotal cart,
    cashier := cashierNameOf user,
    timestamp := now,
    paymentMethod := "Cash",
    storeName := "InJapan Food",
    storeAddress := "Tokyo, Japan",
    storePhone := "0812-XXXX-XXXX" }

/-- The checkout failures of the spec's error taxonomy (§7): the empty-cart
early return (POS.tsx lines 149-156) and the `catch` around the store append
(lines 202-209). -/
inductive CheckoutError where
  | EmptyCartError
  | PersistenceError
deriving Repr, DecidableEq

/-- Outcome of the single `addDoc` call: the store assigns a document id
atomically, or the call throws. -/
inductive AppendOutcome where
  | assigned (docId : String)
  | failure
deriving Repr, DecidableEq

/-- The POS view's state relevant to checkout: the in-memory cart and the
`transactions` collection of the store. -/
structure POSState where
  cart : List CartItem
  transactionsStore : List (String × Transaction)
deriving Repr, DecidableEq

/-- What a successful checkout returns: the store-assigned id, the persisted
transaction and the receipt shown in the modal. -/
structure CheckoutSuccess where
  docId : String
  transaction : Transaction
  receipt : ReceiptData
deriving Repr, DecidableEq

/-- `handleCheckout` (POS.tsx lines 148-210).  Empty cart: toast and return
before anything touches the store.  Otherwise build the transaction document
and attempt the single `addDoc`; on an assigned id the document is appended,
the receipt shown and the cart cleared; on a thrown append the `catch` only
toasts, leaving cart and store exactly as they were.  `now` and `nowR` are
the two `new Date().toISOString()` calls (transaction `created_at`, receipt
`timestamp`). -/
def handleCheckout (st : POSState) (user : Option AuthUser) (now nowR : String)
    (outcome : AppendOutcome) : Except CheckoutError CheckoutSuccess × POSState :=
  if st.cart.isEmpty then
    (.error .EmptyCartError, st)
  else
    match outcome with
    | .assigned docId =>
        (.ok { docId := docId,
               transaction := mkTransaction st.cart user now,
               receipt := mkReceiptData docId st.cart user nowR },
         { cart := [],
           transactionsStore := st.transactionsStore ++ [(docId, mkTransaction st.cart user now)] })
    | .failure => (.error .PersistenceError, st)

/-- The two payment-tab buttons (POS.tsx lines 395-420): the cash tab and
the card/QRIS tab both bind `onClick={handleCheckout}`; the handler receives
no tender argument, so the click dispatch ignores which tab is selected. -/
def processPaymentClick (_selectedTab : String) (st : POSState) (user : Option AuthUser)
    (now nowR : String) (outcome : AppendOutcome) :
    Except CheckoutError CheckoutSuccess × POSState :=
  handleCheckout st user now nowR outcome

/-- JavaScript `s.slice(-6)`: the trailing six characters, or the whole
string when it is shorter than six characters. -/
def sliceLast6 (s : String) : String :=
  ⟨s.data.drop (s.data.length - 6)⟩

/-- ReceiptModal.tsx line 62:
`const receiptNumber = `#${receipt.id.slice(-6).toUpperCase()}``. -/
def receiptNumber (receipt : ReceiptData) : String :=
  "#" ++ (sliceLast6 receipt.id).toUpper

/-- TransactionsTable.tsx line 275: the receipt-number cell renders
`#{transaction.id.slice(-6).toUpperCase()}`. -/
def transactionRowNumber (docId : String) : String :=
  "#" ++ (sliceLast6 docId).toUpper

/-- ReceiptModal.tsx line 162: the per-line `Total` column renders
`item.price * item.quantity`. -/
def receiptLineSubtotal (item : CartItem) : Nat :=
  item.price * item.quantity

/-- ReceiptModal.tsx line 185: the `TOTAL:` row renders
`receipt.totalAmount`. -/
def receiptGrandTotal (receipt : ReceiptData) : Nat :=
  receipt.totalAmount

/-- The sum of the rendered line subtotals of a receipt. -/
def receiptSubtotalsSum (receipt : ReceiptData) : Nat :=
  (receipt.items.map receiptLineSubtotal).sum

/-- TransactionsTable.tsx lines 189-203, `prepareReceiptData`: the receipt
value built when the cashier reopens a stored transaction's receipt. -/
def prepareReceiptData (docId : String) (t : Transaction) : ReceiptData :=
  { id := docId,
    items := t.items,
    totalAmount := t.totalAmount,
    cashier := t.cashier,
    timestamp := t.created_at,
    paymentMethod := t.paymentMethod,
    storeName := "InJapan Food",
    storeAddress := "Tokyo, Japan",
    storePhone := "0812-XXXX-XXXX" }

/-- A row of the `monthly_reports` aggregation
(`interface MonthlyReport` in SalesRevenueReport.tsx). -/
structure MonthlyReport where
  id : String
  month : Nat
  year : Int
  totalSales : Nat
  totalRevenue : Nat
deriving Repr, DecidableEq

/-- An order document as the reporting aggregators read it: an ISO-8601
`created_at`, a `status` string, and `total_price` which may be absent
(the code reads `order.total_price || 0`). -/
structure Order where
  created_at : String
  status : String
  total_price : Option Nat
deriving Repr, DecidableEq

/-- The `status in ['confirmed', 'completed']` clause of the orders query in
`generateReportsFromOrders` (SalesRevenueReport.tsx line 103). -/
def statusCounted (o : Order) : Bool :=
  o.status == "confirmed" || o.status == "completed"

/-- The `created_at >= lo && created_at <= hi` clauses of the orders query
(SalesRevenueReport.tsx lines 101-102); Firestore compares the ISO strings
lexicographically. -/
def inCreatedRange (lo hi : String) (o : Order) : Bool :=
  lo ≤ o.created_at && o.created_at ≤ hi

/-- The store's answer to the orders query of `generateReportsFromOrders`:
the documents in the `created_at` range whose status is confirmed or
completed. -/
def ordersQueryForYear (orders : List Order) (lo hi : String) : List Order :=
  orders.filter (fun o => inCreatedRange lo hi o && statusCounted o)

/-- `generateReportsFromOrders` (SalesRevenueReport.tsx lines 93-131).  The
fetched orders are bucketed by `new Date(order.created_at).getMonth()`
(modelled by the date collaborator `monthOf`), each bucket counting
`sales += 1` and summing `revenue += order.total_price || 0`; `Object.entries`
over the integer-keyed record yields the populated months in ascending
order, one `MonthlyReport` per populated month with id
`` `${selectedYear}-${month}` ``.  `lo`/`hi` are the ISO bounds computed from
`new Date(selectedYear, 0, 1)` and `new Date(selectedYear, 11, 31, 23, 59, 59)`. -/
def generateReportsFromOrders (orders : List Order) (lo hi : String) (year : Int)
    (monthOf : String → Fin 12) : List MonthlyReport :=
  let fetched := ordersQueryForYear orders lo hi
  (List.range 12).filterMap (fun m =>
    let bucket := fetched.filter (fun o => (monthOf o.created_at : Nat) == m)
    if bucket.isEmpty then none
    else some
      { id := toString year ++ "-" ++ toString m,
        month := m,
        year := year,
        totalSales := bucket.length,
        totalRevenue := (bucket.map (fun o => o.total_price.getD 0)).sum })

/-- `generateMockData` (SalesRevenueReport.tsx lines 149-169): twelve mock
reports with ids `mock-0` … `mock-11`; the two `Math.floor(Math.random()*50)`
draws per month are modelled by the stream `rand`, reduced mod 50. -/
def generateMockData (year : Int) (rand : Nat → Nat) : List MonthlyReport :=
  (List.range 12).map (fun i =>
    { id := "mock-" ++ toString i,
      month := i,
      year := year,
      totalSales := rand (2 * i) % 50 + 10,
      totalRevenue := (rand (2 * i + 1) % 50 + 10) * 1000 })

/-- The chart rows of MonthlySalesChart.tsx (`interface MonthlyData`). -/
structure MonthlyData where
  name : String
  revenue : Nat
deriving Repr, DecidableEq

/-- The dashboard stat card values of KasirDashboard.tsx
(`interface DashboardStats`). -/
structure DashboardStats where
  totalSales : Nat
  totalRevenue : Nat
  totalCustomers : Nat
  totalProducts : Nat
  averageOrderValue : Nat
deriving Repr, DecidableEq

/-- The `catch` branch of `fetchMonthlyReports`
(SalesRevenueReport.tsx lines 84-91): on a read failure the view calls
`generateMockData()`, replacing the displayed reports with synthetic ones
whatever they were before. -/
def salesReportOnReadError (year : Int) (rand : Nat → Nat)
    (_prev : List MonthlyReport) : List MonthlyReport :=
  generateMockData year rand

/-- The `catch` branch of `fetchMonthlyData`
(MonthlySalesChart.tsx lines 75-79): `console.error` only; the displayed
chart data is left as it was. -/
def monthlyChartOnReadError (prev : List MonthlyData) : List MonthlyData :=
  prev

/-- The `catch` branch of `fetchDashboardData`
(KasirDashboard.tsx lines 166-170): `console.error` only; the displayed
stats are left as they were. -/
def dashboardOnReadError (prev : DashboardStats) : DashboardStats :=
  prev

/-- A view's read-error branch falls back to synthetic data when it can
replace the previously displayed data rather than leave it unchanged. -/
def fallsBackToSynthetic {α : Type} (f : α → α) : Prop :=
  ∃ s, f s ≠ s

/-- Membership in the month-`m` aggregation bucket of
`generateReportsFromOrders`: bucketed into month `m`, inside the year's
`created_at` range, with status confirmed or completed. -/
def countedInMonth (lo hi : String) (monthOf : String → Fin 12) (m : Nat) (o : Order) : Bool :=
  ((monthOf o.created_at : Nat) == m) && (inCreatedRange lo hi o && statusCounted o)

/-- Concrete cart line used by the witnesses: the spec's scenario
`{id:"A", price:500, qty:2}`. -/
def itemA : CartItem :=
  { id := "A", name := "Item A", price := 500, quantity := 2 }

/-- A POS state holding only `itemA`, with an empty transactions store. -/
def stA : POSState :=
  { cart := [itemA], transactionsStore := [] }

/-! ## Helper lemmas -/

/-- `cartTotal` (a `reduce` from 0) is the sum of per-line price × quantity. -/
theorem cartTotal_eq_sum (cart : List CartItem) :
    cartTotal cart = (cart.map (fun item => item.price * item.quantity)).sum := by
  suffices h : ∀ n : Nat,
      cart.foldl (fun total item => total + item.price * item.quantity) n =
        n + (cart.map (fun item => item.price * item.quantity)).sum by
    simpa [cartTotal] using h 0
  induction cart with
  | nil => intro n; simp
  | cons a l ih => intro n; simp [ih, Nat.add_assoc]

/-- The per-item object copy in the checkout transaction reproduces the cart
lines exactly. -/
theorem mkTransaction_items (cart : List CartItem) (user : Option AuthUser) (now : String) :
    (mkTransaction cart user now).items = cart :=
  List.map_id cart

/-! ## Claims -/

/-- C1: a successful checkout of a non-empty cart returns a transaction whose
`totalAmount` is the pre-checkout `cartTotal`, whose `status` is
`"completed"` and whose `items` are the cart lines at checkout time
(copied per item, so — the embedding being pure — no later cart mutation can
reach them); afterwards the cart is empty and the store grew by exactly that
transaction. -/
theorem checkout_success_spec (st : POSState) (user : Option AuthUser)
    (now nowR docId : String) (h : st.cart ≠ []) :
    handleCheckout st user now nowR (.assigned docId) =
      (.ok { docId := docId,
             transaction := mkTransaction st.cart user now,
             receipt := mkReceiptData docId st.cart user nowR },
       { cart := [],
         transactionsStore := st.transactionsStore ++ [(docId, mkTransaction st.cart user now)] }) ∧
    (mkTransaction st.cart user now).totalAmount = cartTotal st.cart ∧
    (mkTransaction st.cart user now).status = "completed" ∧
    (mkTransaction st.cart user now).items = st.cart := by
  refine ⟨?_, rfl, rfl, mkTransaction_items st.cart user now⟩
  simp [handleCheckout, List.isEmpty_iff, h]

/-- C1 witness: the spec's scenario, cart `[{id:"A", price:500, qty:2}]` —
the transaction totals 1000, is completed, and the cart is empty after. -/
theorem checkout_success_spec_witness :
    (handleCheckout stA none "t1" "t2" (.assigned "doc1")).2.cart = [] ∧
    (mkTransaction stA.cart none "t1").totalAmount = 1000 ∧
    (mkTransaction stA.cart none "t1").status = "completed" := by
  have h := checkout_success_spec stA none "t1" "t2" "doc1" (by simp [stA])
  refine ⟨by rw [h.1], ?_, h.2.2.1⟩
  rw [h.2.1]
  decide

/-- C2: checkout on an empty cart fails with `EmptyCartError` and the state —
cart and transaction store — is exactly what it was, whatever the store
would have answered. -/
theorem checkout_empty_cart_spec (st : POSState) (user : Option AuthUser)
    (now nowR : String) (outcome : AppendOutcome) (h : st.cart = []) :
    handleCheckout st user now nowR outcome = (.error .EmptyCartError, st) := by
  simp [handleCheckout, h]

/-- C2 witness: the empty cart against a store that would have assigned an
id; nothing is appended and the error is `EmptyCartError`. -/
theorem checkout_empty_cart_spec_witness :
    handleCheckout { cart := [], transactionsStore := [] } none "t1" "t2"
        (.assigned "doc1") =
      (.error .EmptyCartError, { cart := [], transactionsStore := [] }) :=
  checkout_empty_cart_spec _ none "t1" "t2" _ rfl

/-- C3: when the store append throws, checkout surfaces `PersistenceError`
and returns the state untouched (cart and store exactly as before, no
partial clear); the same checkout retried against a then-successful append
goes through with the same cart. The model performs one append per call, so
no automatic retry exists. -/
theorem checkout_persistence_failure_spec (st : POSState) (user : Option AuthUser)
    (now nowR : String) (h : st.cart ≠ []) :
    handleCheckout st user now nowR .failure = (.error .PersistenceError, st) ∧
    ∀ docId now2 nowR2,
      (handleCheckout (handleCheckout st user now nowR .failure).2 user now2 nowR2
          (.assigned docId)).1 =
        .ok { docId := docId,
              transaction := mkTransaction st.cart user now2,
              receipt := mkReceiptData docId st.cart user nowR2 } := by
  have hfail : handleCheckout st user now nowR .failure = (.error .PersistenceError, st) := by
    rw [handleCheckout]
    simp [List.isEmpty_iff, h]
  refine ⟨hfail, fun docId now2 nowR2 => ?_⟩
  rw [hfail]
  simp [handleCheckout, List.isEmpty_iff, h]

/-- C3 witness: the one-line cart; the failed append leaves the state
intact and the retry succeeds. -/
theorem checkout_persistence_failure_spec_witness :
    handleCheckout stA none "t1" "t2" .failure = (.error .PersistenceError, stA) ∧
    (handleCheckout (handleCheckout stA none "t1" "t2" .failure).2 none "t3" "t4"
        (.assigned "doc1")).1 =
      .ok { docId := "doc1",
            transaction := mkTransaction stA.cart none "t3",
            receipt := mkReceiptData "doc1" stA.cart none "t4" } := by
  have h := checkout_persistence_failure_spec stA none "t1" "t2" (by simp [stA])
  exact ⟨h.1, h.2 "doc1" "t3" "t4"⟩

/-- C5: `updateQuantity` never changes the number of lines, rewrites exactly
the lines whose id matches — their new quantity is `max 1 (quantity + change)`
— and leaves every other line in place; with no matching line the cart is
returned unchanged; and a matching line's quantity after the update is never
below 1. -/
theorem updateQuantity_spec (cart : List CartItem) (pid : String) (change : Int) :
    (updateQuantity cart pid change).length = cart.length ∧
    (∀ i : Nat, (updateQuantity cart pid change)[i]? =
      (cart[i]?).map (fun item =>
        if item.id == pid then
          { item with quantity := (max 1 ((item.quantity : Int) + change)).toNat }
        else item)) ∧
    ((∀ item ∈ cart, item.id ≠ pid) → updateQuantity cart pid change = cart) ∧
    (∀ item ∈ updateQuantity cart pid change, item.id = pid → 1 ≤ item.quantity) := by
  refine ⟨by simp [updateQuantity], fun i => by simp [updateQuantity], ?_, ?_⟩
  · intro habs
    have : ∀ item ∈ cart,
        (if item.id == pid then
          { item with quantity := (max 1 ((item.quantity : Int) + change)).toNat }
        else item) = item := by
      intro item hmem
      simp [habs item hmem]
    simpa [updateQuantity] using List.map_congr_left this
  · intro item hmem hid
    obtain ⟨a, _, rfl⟩ := List.mem_map.mp hmem
    by_cases hcase : a.id = pid
    · have h1 : (1 : Int) ≤ max 1 ((a.quantity : Int) + change) := le_max_left 1 _
      simp only [hcase, beq_self_eq_true, if_true]
      exact Int.toNat_le_toNat h1
    · rw [if_neg (by simpa using hcase)] at hid
      exact absurd hid hcase

/-- C5 witness: the spec's scenario — `updateQuantity("A", -5)` on a line
with quantity 2 clamps to 1 and keeps the line; on a cart without the id the
call is a no-op. -/
theorem updateQuantity_spec_witness :
    (updateQuantity [itemA] "A" (-5)).length = 1 ∧
    (updateQuantity [itemA] "A" (-5))[0]? = some { itemA with quantity := 1 } ∧
    updateQuantity [itemA] "B" (-5) = [itemA] := by
  have h := updateQuantity_spec [itemA] "A" (-5)
  have hb := (updateQuantity_spec [itemA] "B" (-5)).2.2.1 (by decide)
  refine ⟨by rw [h.1]; rfl, ?_, hb⟩
  rw [h.2.1 0]
  decide

/-- C6: `addToCart` with an already-present product id keeps the length and
rewrites exactly the matching lines, adding 1 to their quantity; with a new
product id it appends one line carrying the product's id, name and price with
quantity 1, the existing lines untouched. It returns a cart in every case. -/
theorem addToCart_spec (cart : List CartItem) (p : Product) :
    (cart.any (fun item => item.id == p.id) = true →
      (addToCart cart p).length = cart.length ∧
      ∀ i : Nat, (addToCart cart p)[i]? =
        (cart[i]?).map (fun item =>
          if item.id == p.id then { item with quantity := item.quantity + 1 } else item)) ∧
    (cart.any (fun item => item.id == p.id) = false →
      addToCart cart p =
        cart ++ [{ id := p.id, name := p.name, price := p.price, quantity := 1 }]) := by
  constructor
  · intro hpresent
    refine ⟨by simp [addToCart, hpresent], fun i => by simp [addToCart, hpresent]⟩
  · intro habsent
    simp [addToCart, habsent]

/-- C6 witness: adding a product already in the cart bumps its quantity from
2 to 3; adding a new product appends a quantity-1 line after `itemA`. -/
theorem addToCart_spec_witness :
    addToCart [itemA] { id := "A", name := "Item A", price := 500 } =
      [{ itemA with quantity := 3 }] ∧
    addToCart [itemA] { id := "B", name := "Item B", price := 300 } =
      [itemA, { id := "B", name := "Item B", price := 300, quantity := 1 }] := by
  have hpresent := (addToCart_spec [itemA] { id := "A", name := "Item A", price := 500 }).1
      (by decide)
  have habsent := (addToCart_spec [itemA] { id := "B", name := "Item B", price := 300 }).2
      (by decide)
  exact ⟨by decide, habsent⟩

/-- The trailing-`n` suffix of a list, written as a drop, equals the reversed
take of the reversal. -/
theorem drop_length_sub_eq_reverse_take {α : Type} (l : List α) (n : Nat) :
    l.drop (l.length - n) = (l.reverse.take n).reverse := by
  rw [List.reverse_take]
  simp

/-- `slice(-6)` keeps exactly the trailing six characters (all of them when
the string is shorter). -/
theorem sliceLast6_eq_reverse_take (s : String) :
    sliceLast6 s = String.mk (s.data.reverse.take 6).reverse :=
  congrArg String.mk (drop_length_sub_eq_reverse_take s.data 6)

/-- C7: every rendered line subtotal is `price × quantity`, and on both
receipt paths — the receipt the POS builds right after checkout and the one
`prepareReceiptData` rebuilds from a stored checkout transaction — the sum of
the line subtotals equals the rendered grand total, which is the
transaction's `totalAmount`. -/
theorem receipt_total_invariant (cart : List CartItem) (user : Option AuthUser)
    (now nowR docId : String) :
    (∀ item : CartItem, receiptLineSubtotal item = item.price * item.quantity) ∧
    receiptSubtotalsSum (mkReceiptData docId cart user nowR) =
      receiptGrandTotal (mkReceiptData docId cart user nowR) ∧
    receiptSubtotalsSum (prepareReceiptData docId (mkTransaction cart user now)) =
      receiptGrandTotal (prepareReceiptData docId (mkTransaction cart user now)) ∧
    receiptGrandTotal (prepareReceiptData docId (mkTransaction cart user now)) =
      (mkTransaction cart user now).totalAmount := by
  refine ⟨fun _ => rfl, (cartTotal_eq_sum cart).symm, ?_, rfl⟩
  show ((prepareReceiptData docId (mkTransaction cart user now)).items.map
      receiptLineSubtotal).sum = _
  rw [show (prepareReceiptData docId (mkTransaction cart user now)).items = cart from
    mkTransaction_items cart user now]
  exact (cartTotal_eq_sum cart).symm

/-- C8: the receipt number `ReceiptModal` renders is `#` followed by the
trailing six characters of the transaction id, upper-cased, and the
`TransactionsTable` receipt-number cell computes the very same derivation
from the same id. -/
theorem receiptNumber_spec (r : ReceiptData) (docId : String) :
    receiptNumber r = "#" ++ (String.mk (r.id.data.reverse.take 6).reverse).toUpper ∧
    transactionRowNumber docId =
      "#" ++ (String.mk (docId.data.reverse.take 6).reverse).toUpper ∧
    transactionRowNumber r.id = receiptNumber r := by
  refine ⟨?_, ?_, rfl⟩ <;>
    simp [receiptNumber, transactionRowNumber, sliceLast6_eq_reverse_take]

/-- C4 (the code, against the spec): whichever payment tab is selected, a
successful checkout records `paymentMethod = "Cash"` — the literal in
POS.tsx line 171 — because both tab buttons invoke the same `handleCheckout`,
which takes no tender input. In particular the card/QRIS tab's checkout of
the scenario cart also persists `"Cash"`. -/
theorem checkout_paymentMethod_always_cash :
    (∀ (tab : String) (st : POSState) (user : Option AuthUser) (now nowR docId : String),
        ((processPaymentClick tab st user now nowR (.assigned docId)).1.map
            (fun s => s.transaction.paymentMethod)) =
          if st.cart.isEmpty then .error .EmptyCartError else .ok "Cash") ∧
    ((processPaymentClick "card" stA none "t1" "t2" (.assigned "doc1")).1.map
        (fun s => s.transaction.paymentMethod)) = .ok "Cash" := by
  constructor
  · intro tab st user now nowR docId
    by_cases h : st.cart.isEmpty <;>
      simp [processPaymentClick, handleCheckout, mkTransaction, Except.map, h]
  · rfl

/-- C9 counterexample: it is not the case that two of the three reporting
views fall back to synthetic data on a read error — every choice of two
among Sales Report, Monthly Chart and Dashboard includes a view whose catch
branch leaves the displayed data unchanged. -/
theorem readError_synthetic_not_two_views :
    ¬ ((fallsBackToSynthetic (salesReportOnReadError 2024 (fun _ => 0)) ∧
        fallsBackToSynthetic monthlyChartOnReadError) ∨
       (fallsBackToSynthetic (salesReportOnReadError 2024 (fun _ => 0)) ∧
        fallsBackToSynthetic dashboardOnReadError) ∨
       (fallsBackToSynthetic monthlyChartOnReadError ∧
        fallsBackToSynthetic dashboardOnReadError)) := by
  rintro (⟨_, s, hs⟩ | ⟨_, s, hs⟩ | ⟨⟨s, hs⟩, _⟩) <;> exact hs rfl

/-- C9 as amended: exactly one of the three reporting views — the Sales
Report — falls back to generating synthetic placeholder data on a store-read
failure; the Monthly Chart and the Kasir Dashboard error branches only log
and leave the displayed data unchanged. -/
theorem readError_synthetic_only_salesReport :
    (∀ (year : Int) (rand : Nat → Nat),
        fallsBackToSynthetic (salesReportOnReadError year rand)) ∧
    ¬ fallsBackToSynthetic monthlyChartOnReadError ∧
    ¬ fallsBackToSynthetic dashboardOnReadError := by
  refine ⟨fun year rand => ⟨[], fun hcontra => ?_⟩, ?_, ?_⟩
  · have hlen : (salesReportOnReadError year rand []).length = 12 := by
      simp [salesReportOnReadError, generateMockData]
    rw [hcontra] at hlen
    simp at hlen
  · rintro ⟨s, hs⟩
    exact hs rfl
  · rintro ⟨s, hs⟩
    exact hs rfl

/-- C10: when the Sales Report generates monthly reports from order records,
only orders with status `confirmed` or `completed` count — the output is
unchanged by dropping all other orders beforehand, each report's
`totalSales`/`totalRevenue` are the count and `total_price` sum of exactly
the confirmed-or-completed in-range orders of its month, and adding an order
of any other status (e.g. `pending`) leaves the generated reports as they
were. -/
theorem generateReports_status_filter (orders : List Order) (lo hi : String) (year : Int)
    (monthOf : String → Fin 12) :
    generateReportsFromOrders orders lo hi year monthOf =
      generateReportsFromOrders (orders.filter statusCounted) lo hi year monthOf ∧
    (∀ r ∈ generateReportsFromOrders orders lo hi year monthOf,
        r.totalSales = (orders.filter (countedInMonth lo hi monthOf r.month)).length ∧
        r.totalRevenue =
          ((orders.filter (countedInMonth lo hi monthOf r.month)).map
            (fun o => o.total_price.getD 0)).sum) ∧
    (∀ o : Order, statusCounted o = false →
        generateReportsFromOrders (orders ++ [o]) lo hi year monthOf =
          generateReportsFromOrders orders lo hi year monthOf) := by
  have hq : ordersQueryForYear (orders.filter statusCounted) lo hi =
      ordersQueryForYear orders lo hi := by
    unfold ordersQueryForYear
    rw [List.filter_filter]
    apply List.filter_congr
    intro o _
    cases hs : statusCounted o <;> simp [hs]
  refine ⟨?_, ?_, ?_⟩
  · simp only [generateReportsFromOrders, hq]
  · intro r hr
    simp only [generateReportsFromOrders, List.mem_filterMap, List.mem_range] at hr
    obtain ⟨m, hm, heq⟩ := hr
    have hbucket : (ordersQueryForYear orders lo hi).filter
          (fun o => (monthOf o.created_at : Nat) == m) =
        orders.filter (countedInMonth lo hi monthOf m) := by
      simp only [ordersQueryForYear, List.filter_filter]
      rfl
    split at heq
    · exact absurd heq (by simp)
    · injection heq with h
      subst h
      constructor <;> simp [hbucket]
  · intro o ho
    have hfilter : ordersQueryForYear (orders ++ [o]) lo hi =
        ordersQueryForYear orders lo hi := by
      simp [ordersQueryForYear, List.filter_append, ho]
    simp only [generateReportsFromOrders, hfilter]
